import Mathlib

/-!
Shallow embedding of the anti-spoofing face-authentication service.

The ml-model service (ml-model/authenticate.py, ml-model/generate_embedding.py,
ml-model/main.py) and the Database service (Database/database.py) are embedded
as executable Lean definitions.  External libraries (PIL resizing, the ONNX
inference session, and the face_recognition detector/encoder) appear as oracle
function parameters; the repository's own control flow is translated line by
line.  Images are rows-by-columns-by-channels grids of byte values; float32
arrays are modelled as rationals.  Python exceptions are modelled with Except.
-/

/-- Decoded images: a rank-3 numpy uint8 array, rows of rows of pixels,
each pixel a list of channel values. -/
abbrev ByteImg := List (List (List Nat))

/-- Rank-2 float arrays (model of numpy float matrices). -/
abbrev QMat := List (List ℚ)

/-- Rank-3 float arrays. -/
abbrev QTen3 := List (List (List ℚ))

/-- Rank-4 float arrays (batched tensors). -/
abbrev QTen4 := List (List (List (List ℚ)))

/-- Face encodings: numeric descriptor vectors. -/
abbrev Enc := List ℚ

/-- Face bounding boxes returned by the face locator (top, right, bottom, left). -/
abbrev FaceLoc := Nat × Nat × Nat × Nat

/-- Channel-axis reversal, the numpy slice image[:, :, ::-1] used in
authenticate.py lines 53 and 82 to swap BGR and RGB channel order. -/
def channelReverse (img : ByteImg) : ByteImg :=
  img.map (fun row => row.map List.reverse)

/-- Cast astype(np.uint8) of authenticate.py line 54: values wrap modulo 256. -/
def astypeUint8 (img : ByteImg) : ByteImg :=
  img.map (fun row => row.map (fun px => px.map (fun v => v % 256)))

/-- Channel count of an image, numpy shape[2] (sampled at the first pixel;
numpy arrays are rectangular). -/
def numChannels (img : ByteImg) : Nat :=
  ((img.headD []).headD []).length

/-- Grayscale-to-3-channel repetition of authenticate.py line 62 for
single-channel input (np.repeat along the channel axis). -/
def gray3 (img : ByteImg) : ByteImg :=
  img.map (fun row => row.map (fun px => List.replicate 3 (px.headD 0)))

/-- Normalisation image.astype(np.float32) / 255.0 of authenticate.py line 64. -/
def scaleDiv255 (img : ByteImg) : QTen3 :=
  img.map (fun row =>
    row.map (fun px => px.map (fun (v : Nat) => (v : ℚ) / 255)))

/-- Channel count of a float rank-3 array (numpy shape[2]). -/
def numChannelsQ (t : QTen3) : Nat :=
  ((t.headD []).headD []).length

/-- Layout change np.transpose(image, (2, 0, 1)) of authenticate.py line 66:
height-width-channel to channel-height-width. -/
def transposeCHW (t : QTen3) : QTen3 :=
  (List.range (numChannelsQ t)).map
    (fun c => t.map (fun row => row.map (fun px => px.getD c 0)))

/-- Batch dimension np.expand_dims(image, axis=0) of authenticate.py line 67. -/
def expandDims0 (t : QTen3) : QTen4 := [t]

/-- FaceAuthenticator.preprocess_image (authenticate.py lines 50-69), on the
numpy-array input path taken by the pipeline.  The PIL resize call with the
Image.Resampling.LANCZOS filter of line 57 is the oracle parameter
resizeLanczos; the code passes target_size = (252, 252). -/
def preprocess_image (resizeLanczos : ByteImg → Nat × Nat → ByteImg)
    (image : ByteImg) : QTen4 :=
  let image1 := if numChannels image == 3 then channelReverse image else image
  let image2 := resizeLanczos (astypeUint8 image1) (252, 252)
  let image3 := if numChannels image2 == 1 then gray3 image2 else image2
  expandDims0 (transposeCHW (scaleDiv255 image3))

/-- Index of the first maximum, continuing a scan: np.argmax semantics
(ties resolved to the earliest index). -/
def argmaxFrom : Nat → Nat → ℚ → List ℚ → Nat
  | _, bi, _, [] => bi
  | i, bi, bv, x :: xs =>
    if bv < x then argmaxFrom (i + 1) i x xs else argmaxFrom (i + 1) bi bv xs

/-- Index of the first maximum of a list, np.argmax over one axis. -/
def argmaxIdx : List ℚ → Nat
  | [] => 0
  | x :: xs => argmaxFrom 1 0 x xs

/-- FaceAuthenticator.get_spoof_prediction (authenticate.py lines 71-93).
The input frame is a rank-3 array, so line 82 reverses its channel axis;
the ONNX session.run call of line 89 is the oracle runDepthModel returning
the depth map and the classification output, and line 91 takes
np.argmax(output, axis=1)[0], the first-row argmax. -/
def get_spoof_prediction (resizeLanczos : ByteImg → Nat × Nat → ByteImg)
    (runDepthModel : QTen4 → Except String (QTen4 × QMat))
    (frame : ByteImg) : Except String (QTen4 × Nat × ByteImg) :=
  let frame_rgb := channelReverse frame
  match runDepthModel (preprocess_image resizeLanczos frame_rgb) with
  | .error e => .error e
  | .ok (depth_map, output) =>
    .ok (depth_map, argmaxIdx (output.headD []), frame_rgb)

/-- Modelled from the spec: the face_recognition library's Euclidean-distance
comparison underlying compare_faces, which is not part of this repository.
Squared distance of two descriptors, summed over paired components. -/
def face_distance_sq (a b : Enc) : ℚ :=
  ((a.zip b).map (fun p => (p.1 - p.2) ^ 2)).sum

/-- Modelled from the spec: a known descriptor matches the probe when its
Euclidean distance is at most the tolerance.  Stated with squared distances
to stay in the rationals; for a nonnegative tolerance this is equivalent,
and a negative tolerance matches nothing. -/
def withinTolerance (knownE probe : Enc) (tol : ℚ) : Bool :=
  decide (0 ≤ tol) && decide (face_distance_sq knownE probe ≤ tol * tol)

/-- Modelled from the spec: face_recognition.compare_faces(known, probe, tol)
returns one Boolean per known descriptor, in list order. -/
def compare_faces (known : List Enc) (probe : Enc) (tol : ℚ) : List Bool :=
  known.map (fun k => withinTolerance k probe tol)

/-- Exception-free wrapper of the modelled compare_faces, usable where the
pipeline expects a possibly-raising library call. -/
def compare_faces_exc (known : List Enc) (probe : Enc) (tol : ℚ) :
    Except String (List Bool) :=
  .ok (compare_faces known probe tol)

/-- Inner index loop of get_user_name (authenticate.py lines 130-132):
for i in range(len(results)), return user_names[i] on the first True.
Indexing user_names past its end is a Python IndexError. -/
def scanIdx : List Bool → List String → Except String (Option String)
  | [], _ => .ok none
  | true :: _, [] => .error "IndexError: list index out of range"
  | true :: _, n :: _ => .ok (some n)
  | false :: rs, [] => scanIdx rs []
  | false :: rs, _ :: ns => scanIdx rs ns

/-- Outer encoding loop of get_user_name (authenticate.py lines 128-133):
for each detected encoding, compare against the known embeddings and return
the first matching user name; fall through to the next encoding otherwise. -/
def encLoop (cf : List Enc → Enc → ℚ → Except String (List Bool))
    (known : List Enc) (names : List String) (tol : ℚ) :
    List Enc → Except String (Option String)
  | [] => .ok none
  | e :: es =>
    match cf known e tol with
    | .error err => .error err
    | .ok results =>
      match scanIdx results names with
      | .error err => .error err
      | .ok (some n) => .ok (some n)
      | .ok none => encLoop cf known names tol es

/-- Body of the try block of FaceAuthenticator.get_user_name
(authenticate.py lines 111-133).  The uint8 dtype conversion of lines
112-113 and np.ascontiguousarray of line 116 are identities on the byte
images of this model.  face_recognition.face_locations and
face_recognition.face_encodings are the oracles fl and fe. -/
def get_user_name_body (fl : ByteImg → Except String (List FaceLoc))
    (fe : ByteImg → List FaceLoc → Except String (List Enc))
    (cf : List Enc → Enc → ℚ → Except String (List Bool))
    (frame_rgb : ByteImg) (known_face_embeddings : List Enc)
    (user_names : List String) (tolerance : ℚ) :
    Except String (Option String) :=
  match fl frame_rgb with
  | .error e => .error e
  | .ok [] => .ok none
  | .ok locs =>
    match fe frame_rgb locs with
    | .error e => .error e
    | .ok [] => .ok none
    | .ok encs => encLoop cf known_face_embeddings user_names tolerance encs

/-- FaceAuthenticator.get_user_name (authenticate.py lines 95-136): the try
body with every exception caught and converted to a None result (lines
134-136). -/
def get_user_name (fl : ByteImg → Except String (List FaceLoc))
    (fe : ByteImg → List FaceLoc → Except String (List Enc))
    (cf : List Enc → Enc → ℚ → Except String (List Bool))
    (frame_rgb : ByteImg) (known_face_embeddings : List Enc)
    (user_names : List String) (tolerance : ℚ) : Option String :=
  match get_user_name_body fl fe cf frame_rgb known_face_embeddings
      user_names tolerance with
  | .ok r => r
  | .error _ => none

/-- Python argument slot of the image parameter: None, a value of a
non-array type, or a decoded numpy array. -/
inductive ImgArg where
  | pyNone : ImgArg
  | notArray : ImgArg
  | arr : ByteImg → ImgArg
deriving DecidableEq

/-- Python argument slot of the known-embeddings dictionary: None, a value of
a non-dict type, or an insertion-ordered name-to-embedding dictionary. -/
inductive DictArg where
  | pyNone : DictArg
  | notDict : DictArg
  | dict : List (String × Enc) → DictArg
deriving DecidableEq

/-- Exceptions escaping FaceAuthenticator.authenticate: an AssertionError
from a failed precondition assert, or the wrapping ValueError of line 168. -/
inductive AuthExn where
  | assertionError : String → AuthExn
  | valueError : String → AuthExn
deriving DecidableEq

/-- FaceAuthenticator.authenticate (authenticate.py lines 138-168),
instrumented: alongside the returned pair, the second component records the
frame passed to get_user_name, or none when get_user_name was never invoked.
Lines 148-151 are the precondition asserts; lines 155-156 split the
dictionary into name and embedding lists in iteration order; line 159 tests
prediction == 1; lines 160-162 set is_authenticated to True and return it
with the (possibly None) matched name; lines 163-165 return (False, None);
lines 166-168 wrap any exception of the try block into a ValueError. -/
def authenticateRun (resizeLanczos : ByteImg → Nat × Nat → ByteImg)
    (runDepthModel : QTen4 → Except String (QTen4 × QMat))
    (fl : ByteImg → Except String (List FaceLoc))
    (fe : ByteImg → List FaceLoc → Except String (List Enc))
    (cf : List Enc → Enc → ℚ → Except String (List Bool))
    (image : ImgArg) (known_face_embedding_dict : DictArg) (threshold : ℚ) :
    Except AuthExn ((Bool × Option String) × Option ByteImg) :=
  match image with
  | .pyNone => .error (.assertionError "Input image cannot be None.")
  | .notArray => .error (.assertionError "Input image must be a numpy array.")
  | .arr img =>
    match known_face_embedding_dict with
    | .pyNone =>
      .error (.assertionError "Known face embedding dictionary cannot be None.")
    | .notDict =>
      .error (.assertionError "Known face embedding must be a dictionary.")
    | .dict kv =>
      let user_names := kv.map Prod.fst
      let known_face_embeddings := kv.map Prod.snd
      match get_spoof_prediction resizeLanczos runDepthModel img with
      | .error e => .error (.valueError ("Error in authentication: " ++ e))
      | .ok (_, prediction, frame_rgb) =>
        if prediction == 1 then
          let user_name :=
            get_user_name fl fe cf frame_rgb known_face_embeddings
              user_names threshold
          .ok ((true, user_name), some frame_rgb)
        else
          .ok ((false, none), none)

/-- FaceAuthenticator.authenticate proper: the instrumented run with the
matcher-invocation trace dropped. -/
def authenticate (resizeLanczos : ByteImg → Nat × Nat → ByteImg)
    (runDepthModel : QTen4 → Except String (QTen4 × QMat))
    (fl : ByteImg → Except String (List FaceLoc))
    (fe : ByteImg → List FaceLoc → Except String (List Enc))
    (cf : List Enc → Enc → ℚ → Except String (List Bool))
    (image : ImgArg) (known_face_embedding_dict : DictArg) (threshold : ℚ) :
    Except AuthExn (Bool × Option String) :=
  (authenticateRun resizeLanczos runDepthModel fl fe cf image
      known_face_embedding_dict threshold).map Prod.fst

/-- Response schema of the /authenticate endpoint (main.py lines 22-24). -/
structure AuthenticateResponse where
  is_authenticated : Bool
  user_name : Option String
deriving DecidableEq

/-- Response construction of main.py lines 191-194: the user name is passed
through only when is_authenticated holds, and nulled otherwise. -/
def mkAuthenticateResponse (p : Bool × Option String) : AuthenticateResponse :=
  ⟨p.1, if p.1 then p.2 else none⟩

/-- Exceptions escaping generate_face_embedding: the explicit ValueError of
generate_embedding.py lines 13-16. -/
inductive GenExn where
  | valueError : String → GenExn
deriving DecidableEq

/-- generate_face_embedding (generate_embedding.py lines 4-27).  The
face_recognition.face_encodings call of line 19, with num_jitters = 2 and
model = "large", is the oracle parameter; any exception it raises is caught
and converted to a None result (lines 25-27), and an empty encoding list
yields None (lines 21-22), otherwise the first encoding is returned. -/
def generate_face_embedding
    (face_encodings_lib : ByteImg → Nat → String → Except String (List Enc))
    (image : ImgArg) : Except GenExn (Option Enc) :=
  match image with
  | .pyNone => .error (.valueError "Input image cannot be None.")
  | .notArray => .error (.valueError "Input image must be a numpy array.")
  | .arr img =>
    match face_encodings_lib img 2 "large" with
    | .error _ => .ok none
    | .ok face_encodings => .ok face_encodings.head?

/-- Modelled from the spec: the first-match policy of the Identity Matcher,
stated in the spec's own words — iterate known users in map order and return
the name of the first user whose descriptor is within tolerance of the
probe.  Kept separate from the source-derived loop for the refinement
theorem. -/
def first_match_policy (kv : List (String × Enc)) (probe : Enc) (tol : ℚ) :
    Option String :=
  (kv.find? (fun p => withinTolerance p.2 probe tol)).map Prod.fst

namespace Database

/-- Embedding store: the ChromaDB collection keyed by user name, modelled as
an insertion-ordered association list of name-embedding pairs. -/
abbrev Store := List (String × List ℚ)

/-- Python argument slot of the embedding parameter of Database.insert:
None, a value of a non-list type, or a list of numbers. -/
inductive EmbArg where
  | pyNone : EmbArg
  | notList : EmbArg
  | listV : List ℚ → EmbArg
deriving DecidableEq

/-- Existence check of database.py lines 61-62: collection.get(ids=[name])
returns a non-empty id list exactly when the name is already stored. -/
def containsName (store : Store) (user_name : String) : Bool :=
  store.any (fun p => p.1 == user_name)

/-- Database.insert (database.py lines 49-77).  Lines 54-55 raise ValueError
for a None, non-list or empty embedding; lines 61-64 return False, leaving
the store untouched, when the name already exists; lines 67-74 append the
name-embedding pair and return True. -/
def insert (store : Store) (user_name : String) (embedding : EmbArg) :
    Except String (Bool × Store) :=
  match embedding with
  | .pyNone => .error "Embedding must be a non-empty list."
  | .notList => .error "Embedding must be a non-empty list."
  | .listV e =>
    if e.isEmpty then .error "Embedding must be a non-empty list."
    else if containsName store user_name then .ok (false, store)
    else .ok (true, store ++ [(user_name, e)])

end Database

/-- Shape of a decoded image: height, width, channels (numpy array shape,
sampled at the leading entries of a rectangular array). -/
def imgShape (img : ByteImg) : Nat × Nat × Nat :=
  (img.length, (img.headD []).length, numChannels img)

/-- Shape of a batched rank-4 tensor (numpy array shape, sampled at the
leading entries of a rectangular array). -/
def ten4Shape (t : QTen4) : Nat × Nat × Nat × Nat :=
  (t.length, (t.headD []).length, ((t.headD []).headD []).length,
    (((t.headD []).headD []).headD []).length)

/-! Theorems -/

/-- C1: with a SPOOF liveness verdict (classification argmax not equal to 1),
FaceAuthenticator.authenticate returns (false, null) for every
known-embeddings dictionary and threshold, and the face-matching step
get_user_name is never invoked (the instrumented trace stays none, for
every matcher oracle). -/
theorem authenticate_spoof_rejected
    (resizeLanczos : ByteImg → Nat × Nat → ByteImg)
    (runDepthModel : QTen4 → Except String (QTen4 × QMat))
    (fl : ByteImg → Except String (List FaceLoc))
    (fe : ByteImg → List FaceLoc → Except String (List Enc))
    (cf : List Enc → Enc → ℚ → Except String (List Bool))
    (img : ByteImg) (kv : List (String × Enc)) (threshold : ℚ)
    (depth : QTen4) (output : QMat)
    (hrun : runDepthModel (preprocess_image resizeLanczos (channelReverse img))
      = .ok (depth, output))
    (hspoof : argmaxIdx (output.headD []) ≠ 1) :
    authenticateRun resizeLanczos runDepthModel fl fe cf (.arr img) (.dict kv)
        threshold = .ok ((false, none), none)
    ∧ authenticate resizeLanczos runDepthModel fl fe cf (.arr img) (.dict kv)
        threshold = .ok (false, none) := by
  have hb : (argmaxIdx (output.headD []) == 1) = false :=
    beq_eq_false_iff_ne.mpr hspoof
  have h1 : authenticateRun resizeLanczos runDepthModel fl fe cf (.arr img)
      (.dict kv) threshold = .ok ((false, none), none) := by
    simp only [authenticateRun, get_spoof_prediction, hrun, hb]
    simp
  refine ⟨h1, ?_⟩
  simp only [authenticate, h1]
  rfl

/-- C1 witness: a concrete spoof-classified input is rejected with no
matcher invocation. -/
theorem authenticate_spoof_rejected_witness :
    authenticateRun (fun i _ => i) (fun _ => .ok ([], [[1, 0]]))
        (fun _ => .ok [(0, 0, 0, 0)]) (fun _ _ => .ok [[0]])
        (fun _ _ _ => .ok [true])
        (.arr [[[0, 0, 0]]]) (.dict [("alice", [0])]) (6 / 10)
      = .ok ((false, none), none) :=
  (authenticate_spoof_rejected (fun i _ => i) (fun _ => .ok ([], [[1, 0]]))
    (fun _ => .ok [(0, 0, 0, 0)]) (fun _ _ => .ok [[0]])
    (fun _ _ _ => .ok [true]) [[[0, 0, 0]]] [("alice", [0])] (6 / 10)
    [] [[1, 0]] rfl (by decide)).1

/-- C2: the code violates the claim: after a REAL liveness verdict with a
non-empty known-embeddings map and zero detectable faces, authenticate
returns (True, None), not (False, None) — line 160 of authenticate.py sets
is_authenticated to True before the matcher runs, so a failed match is
still reported as authenticated. -/
theorem authenticate_real_no_face_returns_true_none :
    authenticate (fun i _ => i) (fun _ => .ok ([], [[0, 1]]))
        (fun _ => .ok []) (fun _ _ => .ok []) (fun _ _ _ => .ok [])
        (.arr [[[0, 0, 0]]]) (.dict [("alice", [0])]) (6 / 10)
      = .ok (true, none) := by rfl

/-- C3: every result of FaceAuthenticator.authenticate rendered through the
response construction of main.py lines 191-194 satisfies the invariant
that a non-null user_name implies is_authenticated. -/
theorem authenticate_user_response_invariant
    (resizeLanczos : ByteImg → Nat × Nat → ByteImg)
    (runDepthModel : QTen4 → Except String (QTen4 × QMat))
    (fl : ByteImg → Except String (List FaceLoc))
    (fe : ByteImg → List FaceLoc → Except String (List Enc))
    (cf : List Enc → Enc → ℚ → Except String (List Bool))
    (image : ImgArg) (d : DictArg) (threshold : ℚ)
    (r : Bool × Option String)
    (hok : authenticate resizeLanczos runDepthModel fl fe cf image d threshold
      = .ok r)
    (hname : (mkAuthenticateResponse r).user_name ≠ none) :
    (mkAuthenticateResponse r).is_authenticated = true := by
  rcases r with ⟨b, un⟩
  cases b
  · exact absurd (by simp [mkAuthenticateResponse]) hname
  · simp [mkAuthenticateResponse]

/-- C3 witness: a concrete matched run produces a response with a non-null
name and the authenticated flag set. -/
theorem authenticate_user_response_invariant_witness :
    (mkAuthenticateResponse (true, some "alice")).is_authenticated = true :=
  authenticate_user_response_invariant (fun i _ => i)
    (fun _ => .ok ([], [[0, 1]])) (fun _ => .ok [(0, 0, 0, 0)])
    (fun _ _ => .ok [[0]]) (fun _ _ _ => .ok [true])
    (.arr [[[0, 0, 0]]]) (.dict [("alice", [0])]) (6 / 10)
    (true, some "alice") (by rfl) (by decide)

/-- C5: generate_face_embedding raises exactly on a None or non-array input;
on every array input it never raises — a library error or an empty
encoding list becomes a None result, otherwise the first encoding is
returned (computed with num_jitters 2 and the large model), and it is
128-dimensional whenever the library's encodings are. -/
theorem generate_face_embedding_contract
    (lib : ByteImg → Nat → String → Except String (List Enc)) :
    generate_face_embedding lib .pyNone
        = .error (.valueError "Input image cannot be None.")
    ∧ generate_face_embedding lib .notArray
        = .error (.valueError "Input image must be a numpy array.")
    ∧ (∀ img : ByteImg, ∃ r, generate_face_embedding lib (.arr img) = .ok r)
    ∧ (∀ img e, lib img 2 "large" = .error e →
        generate_face_embedding lib (.arr img) = .ok none)
    ∧ (∀ img encs, lib img 2 "large" = .ok encs →
        generate_face_embedding lib (.arr img) = .ok encs.head?)
    ∧ (∀ img encs enc, lib img 2 "large" = .ok encs →
        (∀ x ∈ encs, x.length = 128) →
        generate_face_embedding lib (.arr img) = .ok (some enc) →
        enc.length = 128) := by
  refine ⟨rfl, rfl, ?_, ?_, ?_, ?_⟩
  · intro img
    cases h : lib img 2 "large" with
    | error e => exact ⟨none, by simp [generate_face_embedding, h]⟩
    | ok encs => exact ⟨encs.head?, by simp [generate_face_embedding, h]⟩
  · intro img e h
    simp [generate_face_embedding, h]
  · intro img encs h
    simp [generate_face_embedding, h]
  · intro img encs enc h hlen hr
    simp only [generate_face_embedding, h] at hr
    cases encs with
    | nil => simp at hr
    | cons a t =>
      simp at hr
      exact hr ▸ hlen a (List.mem_cons_self a t)

/-- C5 witness: a failing library call on a concrete array input yields a
None result rather than an exception. -/
theorem generate_face_embedding_contract_witness :
    generate_face_embedding (fun _ _ _ => .error "boom") (.arr [[[0]]])
      = .ok none :=
  (generate_face_embedding_contract (fun _ _ _ => .error "boom")).2.2.2.1
    [[[0]]] "boom" rfl

/-- C9: get_user_name never propagates an exception: whenever the try body
raises, the result is None, and whenever it completes, its value is
returned unchanged — the function is total with an Option result for every
oracle behaviour. -/
theorem get_user_name_catches_all
    (fl : ByteImg → Except String (List FaceLoc))
    (fe : ByteImg → List FaceLoc → Except String (List Enc))
    (cf : List Enc → Enc → ℚ → Except String (List Bool))
    (frame : ByteImg) (known : List Enc) (names : List String) (tol : ℚ) :
    (∀ e, get_user_name_body fl fe cf frame known names tol = .error e →
        get_user_name fl fe cf frame known names tol = none)
    ∧ (∀ r, get_user_name_body fl fe cf frame known names tol = .ok r →
        get_user_name fl fe cf frame known names tol = r) := by
  constructor
  · intro e he
    simp [get_user_name, he]
  · intro r hr
    simp [get_user_name, hr]

/-- C9 witness: a raising face-locator oracle is caught and converted to a
None result. -/
theorem get_user_name_catches_all_witness :
    get_user_name (fun _ => .error "boom") (fun _ _ => .ok [])
      (fun _ _ _ => .ok []) [] [] [] 0 = none :=
  (get_user_name_catches_all (fun _ => .error "boom") (fun _ _ => .ok [])
    (fun _ _ _ => .ok []) [] [] [] 0).1 "boom" rfl

/-- C10: for a valid (non-empty list) embedding, Database.insert returns
False and leaves the store unchanged when the user name already exists,
and returns True exactly when the name was absent, in which case the
name-embedding pair is appended and nothing else changes. -/
theorem database_insert_existing_unchanged
    (store : Database.Store) (user_name : String) (e : List ℚ)
    (he : e ≠ []) :
    (Database.containsName store user_name = true →
        Database.insert store user_name (.listV e) = .ok (false, store))
    ∧ (Database.containsName store user_name = false →
        Database.insert store user_name (.listV e)
          = .ok (true, store ++ [(user_name, e)]))
    ∧ (∀ s', Database.insert store user_name (.listV e) = .ok (true, s') →
        Database.containsName store user_name = false
          ∧ s' = store ++ [(user_name, e)]) := by
  cases e with
  | nil => exact absurd rfl he
  | cons a t =>
    refine ⟨?_, ?_, ?_⟩
    · intro hc
      simp [Database.insert, hc]
    · intro hc
      simp [Database.insert, hc]
    · intro s' hs'
      cases hc : Database.containsName store user_name with
      | true => simp [Database.insert, hc] at hs'
      | false =>
        simp [Database.insert, hc] at hs'
        exact ⟨rfl, hs'.symm⟩

/-- C10 witness: inserting an already-present name returns False and the
store is unchanged. -/
theorem database_insert_existing_unchanged_witness :
    Database.insert [("bob", [1])] "bob" (.listV [2])
      = .ok (false, [("bob", [1])]) :=
  (database_insert_existing_unchanged [("bob", [1])] "bob" [2]
    (by decide)).1 (by decide)

/-- Squared Euclidean distance is nonnegative. -/
theorem face_distance_sq_nonneg (a b : Enc) : 0 ≤ face_distance_sq a b := by
  unfold face_distance_sq
  apply List.sum_nonneg
  intro x hx
  simp only [List.mem_map] at hx
  obtain ⟨p, _, rfl⟩ := hx
  positivity

/-- Inner index loop on the modelled comparison results implements the
first-match policy over the paired dictionary. -/
theorem scanIdx_compare_faces (kv : List (String × Enc)) (probe : Enc)
    (tol : ℚ) :
    scanIdx (compare_faces (kv.map Prod.snd) probe tol) (kv.map Prod.fst)
      = .ok (first_match_policy kv probe tol) := by
  induction kv with
  | nil => rfl
  | cons p rest ih =>
    rcases p with ⟨n, e⟩
    cases h : withinTolerance e probe tol with
    | true =>
      simp [compare_faces, first_match_policy, scanIdx, h,
        List.find?_cons_of_pos]
    | false =>
      simpa [compare_faces, first_match_policy, scanIdx, h,
        List.find?_cons_of_neg] using ih

/-- C4: with a single detected probe encoding, the Identity Matcher under the
modelled library comparison returns the first user in map iteration order
whose descriptor is within tolerance of the probe (first-match, not a
minimum-distance search); in particular with two users both within
tolerance the earlier one wins, and at tolerance 0 a descriptor matches
exactly when its squared distance to the probe is zero. -/
theorem get_user_name_first_match
    (fl : ByteImg → Except String (List FaceLoc))
    (fe : ByteImg → List FaceLoc → Except String (List Enc))
    (frame : ByteImg) (loc : FaceLoc) (probe : Enc) (tol : ℚ)
    (hfl : fl frame = .ok [loc]) (hfe : fe frame [loc] = .ok [probe]) :
    (∀ kv : List (String × Enc),
      get_user_name fl fe compare_faces_exc frame (kv.map Prod.snd)
        (kv.map Prod.fst) tol = first_match_policy kv probe tol)
    ∧ (∀ (n1 : String) (e1 : Enc) (n2 : String) (e2 : Enc),
        withinTolerance e1 probe tol = true →
        withinTolerance e2 probe tol = true →
        get_user_name fl fe compare_faces_exc frame [e1, e2] [n1, n2] tol
          = some n1)
    ∧ (∀ e : Enc,
        withinTolerance e probe 0 = true ↔ face_distance_sq e probe = 0) := by
  have hmain : ∀ kv : List (String × Enc),
      get_user_name fl fe compare_faces_exc frame (kv.map Prod.snd)
        (kv.map Prod.fst) tol = first_match_policy kv probe tol := by
    intro kv
    simp only [get_user_name, get_user_name_body, hfl, hfe, encLoop,
      compare_faces_exc]
    rw [scanIdx_compare_faces]
    cases first_match_policy kv probe tol <;> rfl
  refine ⟨hmain, ?_, ?_⟩
  · intro n1 e1 n2 e2 h1 _
    have := hmain [(n1, e1), (n2, e2)]
    simpa [first_match_policy, List.find?_cons_of_pos, h1] using this
  · intro e
    constructor
    · intro h
      simp only [withinTolerance, Bool.and_eq_true, decide_eq_true_eq] at h
      have hle : face_distance_sq e probe ≤ 0 := by
        simpa using h.2
      exact le_antisymm hle (face_distance_sq_nonneg e probe)
    · intro h
      simp [withinTolerance, h]

/-- C4 witness: two equal-to-probe descriptors, both within tolerance 1, and
the first user name wins. -/
theorem get_user_name_first_match_witness :
    get_user_name (fun _ => .ok [(0, 0, 0, 0)]) (fun _ _ => .ok [[3]])
      compare_faces_exc [[[0]]] [[3], [3]] ["a", "b"] 1 = some "a" :=
  (get_user_name_first_match (fun _ => .ok [(0, 0, 0, 0)])
    (fun _ _ => .ok [[3]]) [[[0]]] (0, 0, 0, 0) [3] 1 rfl rfl).2.1
    "a" [3] "b" [3] (by norm_num [withinTolerance, face_distance_sq])
    (by norm_num [withinTolerance, face_distance_sq])

/-- C7 counterexample: a concrete REAL-verdict run in which the frame handed
to the Identity Matcher is the channel-reversed copy [[[3, 2, 1]]], not the
original frame [[[1, 2, 3]]] passed to authenticate. -/
theorem matcher_frame_not_original :
    authenticateRun (fun i _ => i) (fun _ => .ok ([], [[0, 1]]))
        (fun _ => .ok []) (fun _ _ => .ok []) (fun _ _ _ => .ok [])
        (.arr [[[1, 2, 3]]]) (.dict []) 0
      = .ok ((true, none), some [[[3, 2, 1]]])
    ∧ ([[[3, 2, 1]]] : ByteImg) ≠ [[[1, 2, 3]]] := by
  constructor
  · rfl
  · decide

/-- C7 amended: on every REAL-verdict run the Identity Matcher is invoked on
the channel-reversed copy of the original full-resolution frame — same
height, same row widths, same per-pixel channel counts, raw byte values,
never the resized and normalized depth-model tensor — with each pixel's
channel list reversed. -/
theorem matcher_frame_is_channel_reversed_original
    (resizeLanczos : ByteImg → Nat × Nat → ByteImg)
    (runDepthModel : QTen4 → Except String (QTen4 × QMat))
    (fl : ByteImg → Except String (List FaceLoc))
    (fe : ByteImg → List FaceLoc → Except String (List Enc))
    (cf : List Enc → Enc → ℚ → Except String (List Bool))
    (img : ByteImg) (kv : List (String × Enc)) (thr : ℚ)
    (depth : QTen4) (output : QMat)
    (hrun : runDepthModel (preprocess_image resizeLanczos (channelReverse img))
      = .ok (depth, output))
    (hreal : argmaxIdx (output.headD []) = 1) :
    authenticateRun resizeLanczos runDepthModel fl fe cf (.arr img) (.dict kv)
        thr
      = .ok ((true, get_user_name fl fe cf (channelReverse img)
          (kv.map Prod.snd) (kv.map Prod.fst) thr), some (channelReverse img))
    ∧ (channelReverse img).length = img.length
    ∧ (channelReverse img).map List.length = img.map List.length
    ∧ (channelReverse img).map (fun row => row.map List.length)
        = img.map (fun row => row.map List.length) := by
  have hb : (argmaxIdx (output.headD []) == 1) = true := beq_iff_eq.mpr hreal
  refine ⟨?_, ?_, ?_, ?_⟩
  · simp only [authenticateRun, get_spoof_prediction, hrun, hb]
    simp
  · simp [channelReverse]
  · simp [channelReverse, List.map_map, Function.comp, List.length_map]
  · simp [channelReverse, List.map_map, Function.comp, List.length_reverse]

/-- C7 witness: a concrete REAL-verdict run invokes the matcher on the
channel-reversed original frame with the dictionary split in order. -/
theorem matcher_frame_is_channel_reversed_original_witness :
    authenticateRun (fun i _ => i) (fun _ => .ok ([], [[0, 1]]))
        (fun _ => .ok []) (fun _ _ => .ok []) (fun _ _ _ => .ok [])
        (.arr [[[4, 5, 6]]]) (.dict [("z", [0])]) 1
      = .ok ((true, get_user_name (fun _ => .ok []) (fun _ _ => .ok [])
          (fun _ _ _ => .ok []) (channelReverse [[[4, 5, 6]]])
          ([(("z" : String), ([0] : Enc))].map Prod.snd)
          ([(("z" : String), ([0] : Enc))].map Prod.fst) 1),
        some (channelReverse [[[4, 5, 6]]])) :=
  (matcher_frame_is_channel_reversed_original (fun i _ => i)
    (fun _ => .ok ([], [[0, 1]])) (fun _ => .ok []) (fun _ _ => .ok [])
    (fun _ _ _ => .ok []) [[[4, 5, 6]]] [("z", [0])] 1 [] [[0, 1]]
    rfl (by decide)).1

/-- C8: authenticate fails fast with a distinct precondition assertion error
for a None or non-array image and for a None or non-dict embeddings map —
for every oracle behaviour, so before any processing — and an exception
raised inside the pipeline is wrapped once at the boundary into the single
ValueError kind and re-raised, never downgraded to a no-match result. -/
theorem authenticate_precondition_and_wrapping
    (resizeLanczos : ByteImg → Nat × Nat → ByteImg)
    (runDepthModel : QTen4 → Except String (QTen4 × QMat))
    (fl : ByteImg → Except String (List FaceLoc))
    (fe : ByteImg → List FaceLoc → Except String (List Enc))
    (cf : List Enc → Enc → ℚ → Except String (List Bool)) :
    (∀ d thr, authenticate resizeLanczos runDepthModel fl fe cf .pyNone d thr
        = .error (.assertionError "Input image cannot be None."))
    ∧ (∀ d thr,
        authenticate resizeLanczos runDepthModel fl fe cf .notArray d thr
          = .error (.assertionError "Input image must be a numpy array."))
    ∧ (∀ img thr,
        authenticate resizeLanczos runDepthModel fl fe cf (.arr img) .pyNone
            thr
          = .error
            (.assertionError "Known face embedding dictionary cannot be None."))
    ∧ (∀ img thr,
        authenticate resizeLanczos runDepthModel fl fe cf (.arr img) .notDict
            thr
          = .error
            (.assertionError "Known face embedding must be a dictionary."))
    ∧ (∀ img kv thr e,
        runDepthModel (preprocess_image resizeLanczos (channelReverse img))
            = .error e →
        authenticate resizeLanczos runDepthModel fl fe cf (.arr img)
            (.dict kv) thr
          = .error (.valueError ("Error in authentication: " ++ e))) := by
  refine ⟨fun d thr => rfl, fun d thr => rfl, fun img thr => rfl,
    fun img thr => rfl, ?_⟩
  intro img kv thr e h
  simp [authenticate, authenticateRun, get_spoof_prediction, h, Except.map]

/-- C8 witness: a raising inference session on a concrete valid input is
re-raised as the wrapped authentication ValueError. -/
theorem authenticate_precondition_and_wrapping_witness :
    authenticate (fun i _ => i) (fun _ => .error "boom") (fun _ => .ok [])
        (fun _ _ => .ok []) (fun _ _ _ => .ok [])
        (.arr [[[0, 0, 0]]]) (.dict []) 0
      = .error (.valueError ("Error in authentication: " ++ "boom")) :=
  (authenticate_precondition_and_wrapping (fun i _ => i)
    (fun _ => .error "boom") (fun _ => .ok []) (fun _ _ => .ok [])
    (fun _ _ _ => .ok [])).2.2.2.2 [[[0, 0, 0]]] [] 0 "boom" rfl

/-- Two channel reversals cancel: the BGR-to-RGB flip of
get_spoof_prediction followed by the flip inside preprocess_image restores
the original channel order. -/
theorem channelReverse_channelReverse (img : ByteImg) :
    channelReverse (channelReverse img) = img := by
  simp [channelReverse, List.map_map, Function.comp, List.reverse_reverse]

/-- Channel reversal preserves the channel count. -/
theorem numChannels_channelReverse (img : ByteImg) :
    numChannels (channelReverse img) = numChannels img := by
  cases img with
  | nil => rfl
  | cons row rest =>
    cases row with
    | nil => rfl
    | cons px prest => simp [numChannels, channelReverse]

/-- Normalisation preserves the channel count. -/
theorem numChannelsQ_scaleDiv255 (img : ByteImg) :
    numChannelsQ (scaleDiv255 img) = numChannels img := by
  cases img with
  | nil => rfl
  | cons row rest =>
    cases row with
    | nil => rfl
    | cons px prest =>
      simp only [numChannelsQ, numChannels, scaleDiv255, List.map_cons,
        List.headD_cons, List.length_map]

/-- List.getD yields the default or a member of the list. -/
theorem getD_self_or_mem (l : List ℚ) (n : Nat) (d : ℚ) :
    l.getD n d = d ∨ l.getD n d ∈ l := by
  induction l generalizing n with
  | nil => left; simp
  | cons a t ih =>
    cases n with
    | zero => right; simp
    | succ m =>
      rcases ih m with h | h
      · left; simpa using h
      · right
        simp only [List.getD_cons_succ]
        exact List.mem_cons_of_mem a h

/-- np.argmax on a 2-class row: index 1 exactly when the class-1 score is
strictly larger (ties go to index 0). -/
theorem argmaxIdx_pair (s0 s1 : ℚ) :
    argmaxIdx [s0, s1] = if s0 < s1 then 1 else 0 := by
  by_cases h : s0 < s1 <;> simp [argmaxIdx, argmaxFrom, h]

/-- Shape of the preprocessed tensor: batched, channel-first, 252 by 252,
given a resized 252-by-252 3-channel frame. -/
theorem ten4Shape_preprocessed (R : ByteImg)
    (hshape : imgShape R = (252, 252, 3)) :
    ten4Shape (expandDims0 (transposeCHW (scaleDiv255 R)))
      = (1, 3, 252, 252) := by
  obtain ⟨hlen, hrow, hch⟩ :
      R.length = 252 ∧ (R.headD []).length = 252 ∧ numChannels R = 3 := by
    simpa [imgShape, Prod.ext_iff] using hshape
  cases R with
  | nil => simp at hlen
  | cons r R' =>
    cases r with
    | nil => simp [numChannels] at hch
    | cons px r' =>
      have hpx : px.length = 3 := by simpa [numChannels] using hch
      have hr : r'.length + 1 = 252 := by simpa using hrow
      have hR : R'.length + 1 = 252 := by simpa using hlen
      have hc3 : numChannelsQ (scaleDiv255 ((px :: r') :: R')) = 3 := by
        simp only [numChannelsQ, scaleDiv255, List.map_cons, List.headD_cons,
          List.length_map]
        exact hpx
      have hrange : List.range 3 = [0, 1, 2] := rfl
      simp only [ten4Shape, expandDims0, transposeCHW, hc3, hrange]
      simp only [List.map_cons, List.map_nil, List.headD_cons, scaleDiv255,
        List.length_cons, List.length_map, List.length_nil]
      simp only [Prod.mk.injEq]
      exact ⟨trivial, trivial, hR, hr⟩

/-- Every entry of the transposed normalized tensor lies in the unit
interval when the resized frame holds byte values. -/
theorem preprocessed_vals_unit (R : ByteImg)
    (hbytes : ∀ row ∈ R, ∀ px ∈ row, ∀ v ∈ px, v ≤ 255) :
    ∀ ch ∈ transposeCHW (scaleDiv255 R), ∀ row ∈ ch, ∀ v ∈ row,
      0 ≤ v ∧ v ≤ 1 := by
  intro ch hch row hrow v hv
  rw [transposeCHW] at hch
  obtain ⟨c, hc, rfl⟩ := List.mem_map.mp hch
  obtain ⟨srow, hsrow, rfl⟩ := List.mem_map.mp hrow
  obtain ⟨spx, hspx, rfl⟩ := List.mem_map.mp hv
  rw [scaleDiv255] at hsrow
  obtain ⟨rrow, hrrow, rfl⟩ := List.mem_map.mp hsrow
  obtain ⟨rpx, hrpx, rfl⟩ := List.mem_map.mp hspx
  rcases getD_self_or_mem (rpx.map (fun (w : Nat) => (w : ℚ) / 255)) c 0
    with h | h
  · rw [h]
    norm_num
  · obtain ⟨w, hw, hwv⟩ := List.mem_map.mp h
    have hwb : w ≤ 255 := hbytes rrow hrrow rpx hrpx w hw
    rw [← hwv]
    constructor
    · positivity
    · rw [div_le_one (by norm_num)]
      exact_mod_cast hwb

/-- C6: on a decoded 3-channel image the Liveness Classifier preprocessing
produces exactly the tensor obtained by Lanczos-resizing the (RGB-kept,
double channel reversal cancelling) frame to 252 by 252, dividing by 255,
transposing to channel-first layout and adding a batch dimension — final
shape 1 by 3 by 252 by 252 with all values in the unit interval — and the
verdict is the first-row argmax of the 2-class output: prediction 1 (class-1
score strictly larger) is REAL and lets the pipeline continue to matching,
prediction 0 is SPOOF and rejects with (false, none). -/
theorem liveness_preprocessing_and_verdict
    (resizeLanczos : ByteImg → Nat × Nat → ByteImg)
    (runDepthModel : QTen4 → Except String (QTen4 × QMat))
    (img : ByteImg)
    (h3 : numChannels img = 3)
    (hshape : imgShape (resizeLanczos (astypeUint8 img) (252, 252))
      = (252, 252, 3))
    (hbytes : ∀ row ∈ resizeLanczos (astypeUint8 img) (252, 252),
      ∀ px ∈ row, ∀ v ∈ px, v ≤ 255) :
    preprocess_image resizeLanczos (channelReverse img)
        = expandDims0 (transposeCHW (scaleDiv255
            (resizeLanczos (astypeUint8 img) (252, 252))))
    ∧ ten4Shape (preprocess_image resizeLanczos (channelReverse img))
        = (1, 3, 252, 252)
    ∧ (∀ ch ∈ (preprocess_image resizeLanczos (channelReverse img)).headD [],
        ∀ row ∈ ch, ∀ v ∈ row, 0 ≤ v ∧ v ≤ 1)
    ∧ (∀ (depth : QTen4) (s0 s1 : ℚ),
        runDepthModel (preprocess_image resizeLanczos (channelReverse img))
            = .ok (depth, [[s0, s1]]) →
        get_spoof_prediction resizeLanczos runDepthModel img
          = .ok (depth, if s0 < s1 then 1 else 0, channelReverse img))
    ∧ (∀ (fl : ByteImg → Except String (List FaceLoc))
        (fe : ByteImg → List FaceLoc → Except String (List Enc))
        (cf : List Enc → Enc → ℚ → Except String (List Bool))
        (kv : List (String × Enc)) (thr : ℚ) (depth : QTen4) (s0 s1 : ℚ),
        runDepthModel (preprocess_image resizeLanczos (channelReverse img))
            = .ok (depth, [[s0, s1]]) →
        (s0 < s1 → ∃ un, authenticateRun resizeLanczos runDepthModel fl fe cf
            (.arr img) (.dict kv) thr = .ok ((true, un),
              some (channelReverse img)))
        ∧ (¬ s0 < s1 → authenticateRun resizeLanczos runDepthModel fl fe cf
            (.arr img) (.dict kv) thr = .ok ((false, none), none))) := by
  have hcR : numChannels (resizeLanczos (astypeUint8 img) (252, 252)) = 3 := by
    have := congrArg (fun p : Nat × Nat × Nat => p.2.2) hshape
    simpa [imgShape] using this
  have hA : preprocess_image resizeLanczos (channelReverse img)
      = expandDims0 (transposeCHW (scaleDiv255
          (resizeLanczos (astypeUint8 img) (252, 252)))) := by
    simp [preprocess_image, numChannels_channelReverse, h3,
      channelReverse_channelReverse, hcR]
  refine ⟨hA, ?_, ?_, ?_, ?_⟩
  · rw [hA]
    exact ten4Shape_preprocessed _ hshape
  · rw [hA]
    simpa [expandDims0] using preprocessed_vals_unit _ hbytes
  · intro depth s0 s1 hrun
    simp only [get_spoof_prediction, hrun, List.headD_cons, argmaxIdx_pair]
  · intro fl fe cf kv thr depth s0 s1 hrun
    constructor
    · intro hlt
      have hb : (argmaxIdx [s0, s1] == 1) = true := by
        simp [argmaxIdx_pair, hlt]
      refine ⟨get_user_name fl fe cf (channelReverse img) (kv.map Prod.snd)
        (kv.map Prod.fst) thr, ?_⟩
      simp only [authenticateRun, get_spoof_prediction, hrun,
        List.headD_cons, hb]
      simp
    · intro hge
      have hb : (argmaxIdx [s0, s1] == 1) = false := by
        simp [argmaxIdx_pair, hge]
      simp only [authenticateRun, get_spoof_prediction, hrun,
        List.headD_cons, hb]
      simp

set_option maxRecDepth 10000 in
/-- C6 witness: a concrete 3-channel frame with a constant 252-by-252
resize oracle and a REAL-scoring model yields verdict 1 and the
channel-reversed frame. -/
theorem liveness_preprocessing_and_verdict_witness :
    get_spoof_prediction
        (fun _ _ => List.replicate 252 (List.replicate 252 [7, 7, 7]))
        (fun _ => .ok ([], [[0, 1]])) [[[1, 2, 3]]]
      = .ok ([], if (0 : ℚ) < 1 then 1 else 0, channelReverse [[[1, 2, 3]]]) :=
  (liveness_preprocessing_and_verdict
    (fun _ _ => List.replicate 252 (List.replicate 252 [7, 7, 7]))
    (fun _ => .ok ([], [[0, 1]])) [[[1, 2, 3]]] (by decide) (by decide)
    (by
      intro row hrow px hpx v hv
      rw [List.eq_of_mem_replicate hrow] at hpx
      rw [List.eq_of_mem_replicate hpx] at hv
      simp at hv
      omega)).2.2.2.1 [] 0 1 rfl
